import Mathlib

/-!
Verification of the Eco registry (src/Eco.py) against its specification.

The program is a small data-access layer over a SQLite database with two
tables, `Titulares` (holders) and `Dependentes` (dependents).  We embed the
reachable database state as two lists of rows and each operation as a pure
function on that state.  SQLite values are dynamically typed; the program
stores Python strings, ints and None, so a value is modelled by `Val`.

Modelling decisions, each traceable to the source or to documented
SQLite/Python semantics:

* Statement failures that the program handles are modelled where they are
  observable (integrity errors on INSERT, and an explicit failure oracle
  for the two CREATE statements of `criar_tabelas`).  The `sqlite3.connect`
  step is modelled by the `_conn` variants of the operations: every
  function assigns `conn` inside its try block and runs `conn.close()` in
  a `finally` clause, so when the connection fails the raised
  `sqlite3.Error` is caught and reported by the except clause, but the
  `finally` clause then evaluates `conn.close()` with `conn` never bound
  and `UnboundLocalError` escapes the operation.  The plain operation
  functions are the connection-succeeds case.
* Python dictionary access `dados['k']` raises `KeyError` when the key is
  absent, and `re.fullmatch` raises `TypeError` on a non-string argument;
  the two insert operations therefore return `Except PyExc _`.  The
  `except sqlite3.IntegrityError` / `except sqlite3.Error` clauses do not
  catch these exceptions, so they escape the function, which the model
  renders as an `Except.error` result.
* The connection never executes `PRAGMA foreign_keys = ON`.  SQLite keeps
  foreign-key enforcement OFF by default on every new connection, so the
  `ON DELETE CASCADE` clause in the `Dependentes` schema is inert: deleting
  a holder row deletes nothing from `Dependentes`.  `remover_pessoa` is
  modelled accordingly.
* Python's `re` module with a `str` pattern interprets `\d` as any Unicode
  decimal digit (general category Nd), not only ASCII `0-9`; `cpf_valido`
  is modelled with the Nd table.
* SQLite compares TEXT values with memcmp on their UTF-8 encoding, which
  coincides with lexicographic order on code points; `ORDER BY` and the
  value comparisons of WHERE/JOIN are modelled by `valLe` and `sqlEq`
  (NULL compares equal to nothing; values of different storage classes are
  never equal; NULL sorts before numbers, numbers before text).
-/

/-- A SQLite value as stored by this program: NULL, an integer or a text. -/
inductive Val where
  | vnull  : Val
  | vint   : Int → Val
  | vtext  : String → Val
deriving DecidableEq

/-- A Python exception that escapes an operation (the `except` clauses of the
source catch only `sqlite3` errors): `KeyError` from a missing dictionary
key, `TypeError` from `re.fullmatch` on a non-string, and
`UnboundLocalError` from the `finally` clause's `conn.close()` when
`sqlite3.connect` itself failed and `conn` was never bound. -/
inductive PyExc where
  | keyError  : String → PyExc
  | typeError : PyExc
  | unboundLocalError : PyExc
deriving DecidableEq

/-- The observable outcome of an operation: one constructor per `print` of the
source, carrying the data interpolated into the message. -/
inductive Outcome where
  | tabelasCriadas : Outcome
  | erroCriarTabelas : Outcome
  | cpfInvalido : String → Outcome
  | cpfInvalidoDependente : String → Outcome
  | cpfInvalidoTitular : String → Outcome
  | titularNaoEncontrado : String → Outcome
  | inseridoComSucesso : Val → Outcome
  | erroIntegridade : Outcome
  | titularRemovido : String → Outcome
  | dependenteRemovido : String → Outcome
  | pessoaNaoEncontrada : String → Outcome
deriving DecidableEq

/-- A row of the `Titulares` table (column order of the CREATE statement). -/
structure TitularRow where
  cpf : Val
  credencial : Val
  nome : Val
  sexo : Val
  dtNascimento : Val
  idade : Val
  faixaAns : Val
  estadoCivil : Val
  tipoSuplementar : Val
  cep : Val
  bairro : Val
  cidade : Val
  estado : Val
  statusSegurado : Val
  dataInicio : Val
  dataFim : Val
deriving DecidableEq

/-- A row of the `Dependentes` table (column order of the CREATE statement). -/
structure DependenteRow where
  cpf : Val
  credencial : Val
  nome : Val
  sexo : Val
  dtNascimento : Val
  idade : Val
  faixaAns : Val
  estadoCivil : Val
  grauParentesco : Val
  tipoSuplementar : Val
  cpfTitular : Val
  statusSegurado : Val
  dataInicio : Val
  dataFim : Val
deriving DecidableEq

/-- The database contents: the two tables, rows in insertion order. -/
structure DB where
  titulares : List TitularRow
  dependentes : List DependenteRow
deriving DecidableEq

/-- Which of the two tables exist (schema state, for `criar_tabelas`). -/
structure SchemaState where
  titulares : Bool
  dependentes : Bool
deriving DecidableEq

deriving instance DecidableEq for Except

/-- A Python `Dict[str, str]`-style record, as passed to the insert
operations: an association list with the dictionary's (unique) keys. -/
abbrev Dados := List (String × Val)

/-- `dados[k]` : returns the value or raises `KeyError`. -/
def getKey (dados : Dados) (k : String) : Except PyExc Val :=
  match dados.lookup k with
  | some v => .ok v
  | none   => .error (.keyError k)

/-- Passing a non-string to `re.fullmatch` raises `TypeError`. -/
def asPyStr : Val → Except PyExc String
  | .vtext s => .ok s
  | _        => .error .typeError

/-- The Unicode ranges of general category Nd (decimal digits), which is what
`\d` matches in a Python `str` regular expression. -/
def ndRanges : List (Nat × Nat) :=
  [(0x30, 0x39), (0x660, 0x669), (0x6F0, 0x6F9), (0x7C0, 0x7C9),
   (0x966, 0x96F), (0x9E6, 0x9EF), (0xA66, 0xA6F), (0xAE6, 0xAEF),
   (0xB66, 0xB6F), (0xBE6, 0xBEF), (0xC66, 0xC6F), (0xCE6, 0xCEF),
   (0xD66, 0xD6F), (0xDE6, 0xDEF), (0xE50, 0xE59), (0xED0, 0xED9),
   (0xF20, 0xF29), (0x1040, 0x1049), (0x1090, 0x1099), (0x17E0, 0x17E9),
   (0x1810, 0x1819), (0x1946, 0x194F), (0x19D0, 0x19D9), (0x1A80, 0x1A89),
   (0x1A90, 0x1A99), (0x1B50, 0x1B59), (0x1BB0, 0x1BB9), (0x1C40, 0x1C49),
   (0x1C50, 0x1C59), (0xA620, 0xA629), (0xA8D0, 0xA8D9), (0xA900, 0xA909),
   (0xA9D0, 0xA9D9), (0xA9F0, 0xA9F9), (0xAA50, 0xAA59), (0xABF0, 0xABF9),
   (0xFF10, 0xFF19), (0x104A0, 0x104A9), (0x10D30, 0x10D39),
   (0x11066, 0x1106F), (0x110F0, 0x110F9), (0x11136, 0x1113F),
   (0x111D0, 0x111D9), (0x112F0, 0x112F9), (0x11450, 0x11459),
   (0x114D0, 0x114D9), (0x11650, 0x11659), (0x116C0, 0x116C9),
   (0x11730, 0x11739), (0x118E0, 0x118E9), (0x11950, 0x11959),
   (0x11C50, 0x11C59), (0x11D50, 0x11D59), (0x11DA0, 0x11DA9),
   (0x16A60, 0x16A69), (0x16AC0, 0x16AC9), (0x16B50, 0x16B59),
   (0x1D7CE, 0x1D7FF), (0x1E140, 0x1E149), (0x1E2F0, 0x1E2F9),
   (0x1E950, 0x1E959), (0x1FBF0, 0x1FBF9)]

/-- `c` matches Python's `\d` (Unicode general category Nd). -/
def isNdDigit (c : Char) : Bool :=
  ndRanges.any fun p => p.1 ≤ c.toNat && c.toNat ≤ p.2

/-- `cpf_valido` of the source: `re.fullmatch(r"\d{11}", cpf)` succeeds iff
the string is exactly eleven characters, each matching `\d`. -/
def cpf_valido (cpf : String) : Bool :=
  cpf.length == 11 && cpf.data.all isNdDigit

/-- SQLite equality, as used by `WHERE` and `JOIN ... ON` comparisons: NULL
is equal to nothing (three-valued logic never yields true), and values of
different storage classes are never equal (both columns here have TEXT
affinity, so no cross-class coercion applies). -/
def sqlEq : Val → Val → Bool
  | .vint m,  .vint n  => m == n
  | .vtext s, .vtext t => s == t
  | _,        _        => false

/-- The `CHECK(Sexo IN ('M', 'F'))` constraint: passes when the value is one
of the two texts, or NULL (a NULL CHECK result does not fail the row). -/
def sexoOk : Val → Bool
  | .vnull   => true
  | .vtext s => s == "M" || s == "F"
  | _        => false

/-- All conditions under which the INSERT into `Titulares` raises
`sqlite3.IntegrityError`: duplicate primary key `CPF`, duplicate unique
`Credencial`, a NULL in a NOT NULL column, or the `Sexo` CHECK failing. -/
def titularConflict (db : DB) (r : TitularRow) : Bool :=
  db.titulares.any (fun t => sqlEq t.cpf r.cpf) ||
  db.titulares.any (fun t => sqlEq t.credencial r.credencial) ||
  r.credencial == .vnull || r.nome == .vnull || r.dtNascimento == .vnull ||
  !(sexoOk r.sexo)

/-- All conditions under which the INSERT into `Dependentes` raises
`sqlite3.IntegrityError`.  The foreign key on `CPFTitular` is NOT among
them: foreign-key enforcement is off on this connection. -/
def dependenteConflict (db : DB) (r : DependenteRow) : Bool :=
  db.dependentes.any (fun d => sqlEq d.cpf r.cpf) ||
  db.dependentes.any (fun d => sqlEq d.credencial r.credencial) ||
  r.credencial == .vnull || r.nome == .vnull || r.dtNascimento == .vnull ||
  r.grauParentesco == .vnull || r.cpfTitular == .vnull ||
  !(sexoOk r.sexo)

/-- `criar_tabelas`.  The two `CREATE TABLE IF NOT EXISTS` statements run in
autocommit mode (Python sqlite3 opens implicit transactions only for DML),
so each statement that executes takes effect immediately.  `exec1Ok` and
`exec2Ok` say whether each `cursor.execute` succeeds or raises
`sqlite3.Error` (e.g. a disk fault); an exception jumps to the `except`
clause, so a failure of the first statement skips the second. -/
def criar_tabelas (exec1Ok exec2Ok : Bool) (s : SchemaState) :
    Outcome × SchemaState :=
  if !exec1Ok then (.erroCriarTabelas, s)
  else
    let s1 : SchemaState := { s with titulares := true }
    if !exec2Ok then (.erroCriarTabelas, s1)
    else (.tabelasCriadas, { s1 with dependentes := true })

/-- `inserir_titular`.  Validates `dados['cpf']`, then evaluates the sixteen
INSERT parameters left to right (each a dictionary access that can raise
`KeyError`, which the `except sqlite3` clauses do not catch), then executes
the INSERT: an integrity conflict is caught and reported, otherwise the row
is appended and committed.  `dados['cpf']` and `dados['nome']` are re-read
by the source after their first successful read; a repeated read of a
present key returns the same value, so the re-reads are not repeated in the
model. -/
def inserir_titular (dados : Dados) (db : DB) :
    Except PyExc (Outcome × DB) := do
  let cpfV ← getKey dados "cpf"
  let cpfS ← asPyStr cpfV
  if !(cpf_valido cpfS) then return (.cpfInvalido cpfS, db)
  let credencial ← getKey dados "credencial"
  let nome ← getKey dados "nome"
  let sexo ← getKey dados "sexo"
  let dtNascimento ← getKey dados "dt_nascimento"
  let idade ← getKey dados "idade"
  let faixaAns ← getKey dados "faixa_ans"
  let estadoCivil ← getKey dados "estado_civil"
  let tipoSuplementar ← getKey dados "tipo_suplementar"
  let cep ← getKey dados "cep"
  let bairro ← getKey dados "bairro"
  let cidade ← getKey dados "cidade"
  let estado ← getKey dados "estado"
  let status ← getKey dados "status"
  let dataInicio ← getKey dados "data_inicio"
  let dataFim ← getKey dados "data_fim"
  let r : TitularRow :=
    { cpf := .vtext cpfS, credencial := credencial, nome := nome,
      sexo := sexo, dtNascimento := dtNascimento, idade := idade,
      faixaAns := faixaAns, estadoCivil := estadoCivil,
      tipoSuplementar := tipoSuplementar, cep := cep, bairro := bairro,
      cidade := cidade, estado := estado, statusSegurado := status,
      dataInicio := dataInicio, dataFim := dataFim }
  if titularConflict db r then return (.erroIntegridade, db)
  return (.inseridoComSucesso nome,
          { db with titulares := db.titulares ++ [r] })

/-- `inserir_dependente`.  Validates `dados['cpf']`, then
`dados['cpf_titular']`, then runs `SELECT 1 FROM Titulares WHERE CPF = ?`
and returns with a not-found report when no holder row matches; only then
are the remaining INSERT parameters evaluated (left to right) and the
INSERT executed, with integrity conflicts caught and reported. -/
def inserir_dependente (dados : Dados) (db : DB) :
    Except PyExc (Outcome × DB) := do
  let cpfV ← getKey dados "cpf"
  let cpfS ← asPyStr cpfV
  if !(cpf_valido cpfS) then return (.cpfInvalidoDependente cpfS, db)
  let cpfTitV ← getKey dados "cpf_titular"
  let cpfTitS ← asPyStr cpfTitV
  if !(cpf_valido cpfTitS) then return (.cpfInvalidoTitular cpfTitS, db)
  if !(db.titulares.any fun t => sqlEq t.cpf (.vtext cpfTitS)) then
    return (.titularNaoEncontrado cpfTitS, db)
  let credencial ← getKey dados "credencial"
  let nome ← getKey dados "nome"
  let sexo ← getKey dados "sexo"
  let dtNascimento ← getKey dados "dt_nascimento"
  let idade ← getKey dados "idade"
  let faixaAns ← getKey dados "faixa_ans"
  let estadoCivil ← getKey dados "estado_civil"
  let grauParentesco ← getKey dados "grau_parentesco"
  let tipoSuplementar ← getKey dados "tipo_suplementar"
  let status ← getKey dados "status"
  let dataInicio ← getKey dados "data_inicio"
  let dataFim ← getKey dados "data_fim"
  let r : DependenteRow :=
    { cpf := .vtext cpfS, credencial := credencial, nome := nome,
      sexo := sexo, dtNascimento := dtNascimento, idade := idade,
      faixaAns := faixaAns, estadoCivil := estadoCivil,
      grauParentesco := grauParentesco, tipoSuplementar := tipoSuplementar,
      cpfTitular := .vtext cpfTitS, statusSegurado := status,
      dataInicio := dataInicio, dataFim := dataFim }
  if dependenteConflict db r then return (.erroIntegridade, db)
  return (.inseridoComSucesso nome,
          { db with dependentes := db.dependentes ++ [r] })

/-- `remover_pessoa`.  Validates the CPF, checks the holder table first and,
when a holder matches, runs `DELETE FROM Titulares WHERE CPF = ?`.  Because
`PRAGMA foreign_keys = ON` is never issued, SQLite does not act on the
`ON DELETE CASCADE` clause and the `Dependentes` table is untouched.
Otherwise it deletes from `Dependentes` and reports not-found when
`cursor.rowcount` is zero. -/
def remover_pessoa (cpf : String) (db : DB) : Outcome × DB :=
  if !(cpf_valido cpf) then (.cpfInvalido cpf, db)
  else if db.titulares.any fun t => sqlEq t.cpf (.vtext cpf) then
    let restT := db.titulares.filter fun t => !(sqlEq t.cpf (.vtext cpf))
    (.titularRemovido cpf, { db with titulares := restT })
  else
    let rest := db.dependentes.filter fun d => !(sqlEq d.cpf (.vtext cpf))
    if rest.length < db.dependentes.length then
      (.dependenteRemovido cpf, { db with dependentes := rest })
    else (.pessoaNaoEncontrada cpf, db)

/-- The projection of a holder row printed by `listar_pessoas`:
`SELECT CPF, Nome, Sexo, Idade, Estado, StatusSegurado`. -/
structure TitularView where
  cpf : Val
  nome : Val
  sexo : Val
  idade : Val
  estado : Val
  statusSegurado : Val
deriving DecidableEq

/-- The projection of a joined dependent row printed by `listar_pessoas`:
`SELECT d.CPF, d.Nome, d.Sexo, d.Idade, d.GrauParentesco, t.Nome,
d.StatusSegurado`. -/
structure DependenteView where
  cpf : Val
  nome : Val
  sexo : Val
  idade : Val
  grauParentesco : Val
  titularNome : Val
  statusSegurado : Val
deriving DecidableEq

/-- Code-point order on character lists, which is the order SQLite's memcmp
comparison of UTF-8 TEXT values induces. -/
def charsLe : List Char → List Char → Bool
  | [], _ => true
  | _ :: _, [] => false
  | a :: as, b :: bs =>
    if a.toNat < b.toNat then true
    else if b.toNat < a.toNat then false
    else charsLe as bs

/-- SQLite ORDER BY comparison on values: NULL sorts first, then numbers by
value, then text in memcmp order. -/
def valLe : Val → Val → Bool
  | .vnull,   _        => true
  | .vint _,  .vnull   => false
  | .vint m,  .vint n  => decide (m ≤ n)
  | .vint _,  .vtext _ => true
  | .vtext _, .vnull   => false
  | .vtext _, .vint _  => false
  | .vtext s, .vtext t => charsLe s.data t.data

/-- ORDER BY Nome on the holder projection. -/
def titViewLe (a b : TitularView) : Bool := valLe a.nome b.nome

/-- ORDER BY d.Nome on the joined dependent projection. -/
def depViewLe (a b : DependenteView) : Bool := valLe a.nome b.nome

/-- The holder projection. -/
def projTitular (t : TitularRow) : TitularView :=
  { cpf := t.cpf, nome := t.nome, sexo := t.sexo, idade := t.idade,
    estado := t.estado, statusSegurado := t.statusSegurado }

/-- `FROM Dependentes d JOIN Titulares t ON d.CPFTitular = t.CPF`: one pair
per dependent row and matching holder row. -/
def joinDependentes (db : DB) : List (DependenteRow × TitularRow) :=
  db.dependentes.flatMap fun d =>
    (db.titulares.filter fun t => sqlEq d.cpfTitular t.cpf).map fun t =>
      (d, t)

/-- The joined dependent projection. -/
def projDependente (p : DependenteRow × TitularRow) : DependenteView :=
  { cpf := p.1.cpf, nome := p.1.nome, sexo := p.1.sexo, idade := p.1.idade,
    grauParentesco := p.1.grauParentesco, titularNome := p.2.nome,
    statusSegurado := p.1.statusSegurado }

/-- `listar_pessoas`: the two SELECTs, each sorted by the respective Nome
column; the function runs no INSERT/UPDATE/DELETE, so the database state is
returned unchanged. -/
def listar_pessoas (db : DB) :
    (List TitularView × List DependenteView) × DB :=
  (((db.titulares.map projTitular).mergeSort titViewLe,
    ((joinDependentes db).map projDependente).mergeSort depViewLe), db)

/-- `criar_tabelas` including the `sqlite3.connect` step.  When the
connection fails (`connectOk = false`), the raised `sqlite3.Error` is
caught and reported by the except clause, but the `finally` clause then
evaluates `conn.close()` with `conn` never bound, and `UnboundLocalError`
escapes the operation boundary. -/
def criar_tabelas_conn (connectOk exec1Ok exec2Ok : Bool)
    (s : SchemaState) : Except PyExc (Outcome × SchemaState) :=
  if connectOk then .ok (criar_tabelas exec1Ok exec2Ok s)
  else .error .unboundLocalError

/-- `inserir_titular` including the connect step: the tax-ID validation at
the top of the function runs before the try block; past it, a failed
connection escapes with `UnboundLocalError` as in `criar_tabelas_conn`,
and a successful connection continues as `inserir_titular` (whose own
validation re-check takes the same branch, the function being
deterministic in its inputs). -/
def inserir_titular_conn (connectOk : Bool) (dados : Dados) (db : DB) :
    Except PyExc (Outcome × DB) := do
  let cpfV ← getKey dados "cpf"
  let cpfS ← asPyStr cpfV
  if !(cpf_valido cpfS) then return (.cpfInvalido cpfS, db)
  if connectOk then inserir_titular dados db
  else .error .unboundLocalError

/-- `inserir_dependente` including the connect step: both tax-ID
validations run before the try block. -/
def inserir_dependente_conn (connectOk : Bool) (dados : Dados) (db : DB) :
    Except PyExc (Outcome × DB) := do
  let cpfV ← getKey dados "cpf"
  let cpfS ← asPyStr cpfV
  if !(cpf_valido cpfS) then return (.cpfInvalidoDependente cpfS, db)
  let cpfTitV ← getKey dados "cpf_titular"
  let cpfTitS ← asPyStr cpfTitV
  if !(cpf_valido cpfTitS) then return (.cpfInvalidoTitular cpfTitS, db)
  if connectOk then inserir_dependente dados db
  else .error .unboundLocalError

/-- `remover_pessoa` including the connect step (the validation precedes
the try block). -/
def remover_pessoa_conn (connectOk : Bool) (cpf : String) (db : DB) :
    Except PyExc (Outcome × DB) :=
  if !(cpf_valido cpf) then .ok (.cpfInvalido cpf, db)
  else if connectOk then .ok (remover_pessoa cpf db)
  else .error .unboundLocalError

/-- `listar_pessoas` including the connect step. -/
def listar_pessoas_conn (connectOk : Bool) (db : DB) :
    Except PyExc ((List TitularView × List DependenteView) × DB) :=
  if connectOk then .ok (listar_pessoas db)
  else .error .unboundLocalError

/-- The holder record of the source's test block (`dados_titular`). -/
def dadosTitular : Dados :=
  [("cpf", .vtext "12930888466"), ("credencial", .vtext "CRED001"),
   ("nome", .vtext "Julius Cesar"), ("sexo", .vtext "M"),
   ("dt_nascimento", .vtext "2001-05-10"), ("idade", .vint 24),
   ("faixa_ans", .vtext "Adulto"), ("estado_civil", .vtext "Solteiro"),
   ("tipo_suplementar", .vtext "Ouro"), ("cep", .vtext "12345678"),
   ("bairro", .vtext "Timbi"), ("cidade", .vtext "Camaragibe"),
   ("estado", .vtext "PE"), ("status", .vtext "Ativo"),
   ("data_inicio", .vtext "2025-01-01"), ("data_fim", .vnull)]

/-- The dependent record of the source's test block (`dados_dependente`). -/
def dadosDependente : Dados :=
  [("cpf", .vtext "21223344556"), ("credencial", .vtext "CRED002"),
   ("nome", .vtext "Maria Silva"), ("sexo", .vtext "F"),
   ("dt_nascimento", .vtext "2012-03-20"), ("idade", .vint 13),
   ("faixa_ans", .vtext "Infantil"), ("estado_civil", .vtext "Solteiro"),
   ("grau_parentesco", .vtext "Prima"), ("tipo_suplementar", .vtext "Ouro"),
   ("cpf_titular", .vtext "12930888466"), ("status", .vtext "Ativo"),
   ("data_inicio", .vtext "2025-01-01"), ("data_fim", .vnull)]

/-- The `Titulares` row produced by inserting `dadosTitular`. -/
def exTitular : TitularRow :=
  { cpf := .vtext "12930888466", credencial := .vtext "CRED001",
    nome := .vtext "Julius Cesar", sexo := .vtext "M",
    dtNascimento := .vtext "2001-05-10", idade := .vint 24,
    faixaAns := .vtext "Adulto", estadoCivil := .vtext "Solteiro",
    tipoSuplementar := .vtext "Ouro", cep := .vtext "12345678",
    bairro := .vtext "Timbi", cidade := .vtext "Camaragibe",
    estado := .vtext "PE", statusSegurado := .vtext "Ativo",
    dataInicio := .vtext "2025-01-01", dataFim := .vnull }

/-- The `Dependentes` row produced by inserting `dadosDependente`. -/
def exDependente : DependenteRow :=
  { cpf := .vtext "21223344556", credencial := .vtext "CRED002",
    nome := .vtext "Maria Silva", sexo := .vtext "F",
    dtNascimento := .vtext "2012-03-20", idade := .vint 13,
    faixaAns := .vtext "Infantil", estadoCivil := .vtext "Solteiro",
    grauParentesco := .vtext "Prima", tipoSuplementar := .vtext "Ouro",
    cpfTitular := .vtext "12930888466", statusSegurado := .vtext "Ativo",
    dataInicio := .vtext "2025-01-01", dataFim := .vnull }

/-- The empty database. -/
def emptyDB : DB := { titulares := [], dependentes := [] }

/-- The database after the source's two test inserts. -/
def exDB : DB := { titulares := [exTitular], dependentes := [exDependente] }

/-- Specification-side predicate (for comparison with `cpf_valido`): `c` is
an ASCII decimal digit `0`-`9`, i.e. code point between 0x30 and 0x39. -/
def asciiDigit (c : Char) : Bool :=
  0x30 ≤ c.toNat && c.toNat ≤ 0x39

/-- Specification-side predicate, following the spec's words: the string
consists of exactly 11 ASCII decimal digits. -/
def elevenAsciiDigits (s : String) : Bool :=
  s.length == 11 && s.data.all asciiDigit

/-- Eleven ARABIC-INDIC DIGIT ONE characters (U+0661): each matches Python's
`\d`, none is an ASCII digit. -/
def arabicIndicCpf : String := "١١١١١١١١١١١"

/-- `dadosTitular` with the `nome` key removed. -/
def dadosTitularSemNome : Dados :=
  dadosTitular.filter fun kv => kv.1 != "nome"

/-- `dadosTitular` with the `data_fim` key removed (the spec reading of "end
date may be absent"). -/
def dadosTitularSemDataFim : Dados :=
  dadosTitular.filter fun kv => kv.1 != "data_fim"

example : inserir_titular dadosTitular emptyDB =
    .ok (.inseridoComSucesso (.vtext "Julius Cesar"),
         { titulares := [exTitular], dependentes := [] }) := by decide

example : inserir_dependente dadosDependente
    { titulares := [exTitular], dependentes := [] } =
    .ok (.inseridoComSucesso (.vtext "Maria Silva"), exDB) := by decide

example : remover_pessoa "21223344556" exDB =
    (.dependenteRemovido "21223344556",
     { titulares := [exTitular], dependentes := [] }) := by decide

example : cpf_valido "12930888466" = true := by decide
example : cpf_valido "1293088846" = false := by decide
example : cpf_valido "129308884667" = false := by decide
example : cpf_valido "12930a88466" = false := by decide

theorem charsLe_trans : ∀ (a b c : List Char),
    charsLe a b = true → charsLe b c = true → charsLe a c = true := by
  intro a
  induction a with
  | nil => intro b c _ _; simp [charsLe]
  | cons x xs ih =>
    intro b c h1 h2
    cases b with
    | nil => simp [charsLe] at h1
    | cons y ys =>
      cases c with
      | nil => simp [charsLe] at h2
      | cons z zs =>
        simp only [charsLe] at h1 h2 ⊢
        by_cases hxz : x.toNat < z.toNat
        · rw [if_pos hxz]
        · by_cases hxy : x.toNat < y.toNat
          · by_cases hyz : y.toNat < z.toNat
            · omega
            · by_cases hzy : z.toNat < y.toNat
              · rw [if_neg hyz, if_pos hzy] at h2; exact absurd h2 (by simp)
              · omega
          · by_cases hyx : y.toNat < x.toNat
            · rw [if_neg hxy, if_pos hyx] at h1; exact absurd h1 (by simp)
            · rw [if_neg hxy, if_neg hyx] at h1
              by_cases hyz : y.toNat < z.toNat
              · omega
              · by_cases hzy : z.toNat < y.toNat
                · rw [if_neg hyz, if_pos hzy] at h2; exact absurd h2 (by simp)
                · rw [if_neg hyz, if_neg hzy] at h2
                  have hzx : ¬ z.toNat < x.toNat := by omega
                  rw [if_neg hxz, if_neg hzx]
                  exact ih ys zs h1 h2

theorem charsLe_total : ∀ (a b : List Char),
    charsLe a b = true ∨ charsLe b a = true := by
  intro a
  induction a with
  | nil => intro b; left; simp [charsLe]
  | cons x xs ih =>
    intro b
    cases b with
    | nil => right; simp [charsLe]
    | cons y ys =>
      by_cases hxy : x.toNat < y.toNat
      · left; simp [charsLe, hxy]
      · by_cases hyx : y.toNat < x.toNat
        · right; simp [charsLe, hyx]
        · rcases ih ys with h | h
          · left; simp [charsLe, hxy, hyx, h]
          · right; simp [charsLe, hyx, hxy, h]

theorem valLe_trans : ∀ (a b c : Val),
    valLe a b = true → valLe b c = true → valLe a c = true := by
  intro a b c h1 h2
  cases a <;> cases b <;> cases c <;>
    simp_all [valLe] <;>
    first
      | omega
      | exact charsLe_trans _ _ _ h1 h2

theorem valLe_total : ∀ (a b : Val),
    valLe a b = true ∨ valLe b a = true := by
  intro a b
  cases a <;> cases b <;>
    simp [valLe] <;>
    first
      | omega
      | exact charsLe_total _ _

theorem titViewLe_trans (a b c : TitularView) (h1 : titViewLe a b = true)
    (h2 : titViewLe b c = true) : titViewLe a c = true :=
  valLe_trans _ _ _ h1 h2

theorem titViewLe_total (a b : TitularView) :
    (titViewLe a b || titViewLe b a) = true := by
  rcases valLe_total a.nome b.nome with h | h <;> simp [titViewLe, h]

theorem depViewLe_trans (a b c : DependenteView) (h1 : depViewLe a b = true)
    (h2 : depViewLe b c = true) : depViewLe a c = true :=
  valLe_trans _ _ _ h1 h2

theorem depViewLe_total (a b : DependenteView) :
    (depViewLe a b || depViewLe b a) = true := by
  rcases valLe_total a.nome b.nome with h | h <;> simp [depViewLe, h]

/-- Claim C7: `listar_pessoas` reads every holder row ordered by name
ascending and every dependent row inner-joined with its holder (attaching
the holder's name) ordered by dependent name ascending, producing two
ordered sequences of flat field projections, and performs no mutation of
the store: the holder section is a permutation of the projections of all
holder rows and is sorted by Nome; the dependent section is a permutation
of the projections of the inner join and is sorted by d.Nome; the database
state is returned unchanged. -/
theorem c7_listar_ordered_projections_no_mutation :
    ∀ db : DB,
      (listar_pessoas db).2 = db ∧
      List.Pairwise (fun a b => titViewLe a b = true) (listar_pessoas db).1.1 ∧
      ((listar_pessoas db).1.1).Perm (db.titulares.map projTitular) ∧
      List.Pairwise (fun a b => depViewLe a b = true) (listar_pessoas db).1.2 ∧
      ((listar_pessoas db).1.2).Perm
        ((joinDependentes db).map projDependente) := by
  intro db
  refine ⟨rfl, ?_, ?_, ?_, ?_⟩
  · exact List.sorted_mergeSort titViewLe_trans titViewLe_total _
  · exact List.mergeSort_perm _ _
  · exact List.sorted_mergeSort depViewLe_trans depViewLe_total _
  · exact List.mergeSort_perm _ _

/-- Claim C1, evaluated at the failing input: the store holds holder
12930888466 with one dependent row referencing it.  `remover_pessoa` on the
holder's tax ID deletes the holder row but leaves the dependent row in the
`Dependentes` table — the connection never enables foreign-key enforcement,
so the `ON DELETE CASCADE` clause never fires, contradicting both the claim
and the code's own success message.  Only the listing hides the orphan row,
because the report's inner join drops dependents without a holder. -/
theorem c1_remove_holder_leaves_dependente_rows :
    remover_pessoa "12930888466" exDB =
      (.titularRemovido "12930888466",
       { titulares := [], dependentes := [exDependente] }) ∧
    (listar_pessoas (remover_pessoa "12930888466" exDB).2).1.2 = [] := by
  constructor
  · decide
  · have hj : joinDependentes (remover_pessoa "12930888466" exDB).2 = [] := by
      decide
    simp [listar_pessoas, hj]

/-- Claim C2, counterexample: eleven ARABIC-INDIC DIGIT ONE characters pass
`cpf_valido` (Python's `\d` matches any Unicode decimal digit) although the
string does not consist of ASCII digits, refuting "true if and only if the
string is exactly 11 ASCII decimal digits". -/
theorem c2_counterexample_arabic_digits :
    cpf_valido arabicIndicCpf = true ∧
    elevenAsciiDigits arabicIndicCpf = false := by decide

/-- Claim C2 as amended: `cpf_valido s` is true iff `s` is exactly eleven
Unicode decimal-digit characters (general category Nd); in particular every
string of eleven ASCII digits (leading zeros included) is accepted, but so
are some non-ASCII digit strings. -/
theorem c2_amended_unicode_digit_predicate :
    ∀ s : String,
      (cpf_valido s = true ↔
        s.length = 11 ∧ ∀ c ∈ s.data, isNdDigit c = true) ∧
      (elevenAsciiDigits s = true → cpf_valido s = true) := by
  intro s
  constructor
  · simp [cpf_valido, List.all_eq_true]
  · intro h
    simp only [elevenAsciiDigits, Bool.and_eq_true, beq_iff_eq,
      List.all_eq_true] at h
    simp only [cpf_valido, Bool.and_eq_true, beq_iff_eq, List.all_eq_true]
    refine ⟨h.1, fun c hc => ?_⟩
    have ha := h.2 c hc
    simp only [asciiDigit, Bool.and_eq_true, decide_eq_true_eq] at ha
    simp only [isNdDigit, List.any_eq_true]
    refine ⟨(0x30, 0x39), by simp [ndRanges], ?_⟩
    simp only [Bool.and_eq_true, decide_eq_true_eq]
    omega

/-- Claim C2 witness: the amended characterisation applied to the holder tax
ID of the source's test block, an eleven-ASCII-digit string. -/
theorem c2_amended_witness : cpf_valido "12930888466" = true :=
  (c2_amended_unicode_digit_predicate "12930888466").2 (by decide)

/-- Claim C9, counterexample: starting from a schema with neither table,
when the first CREATE statement succeeds and the second raises a storage
error, `criar_tabelas` reports the failure but the schema now contains the
`Titulares` table — a schema-creation failure that does NOT leave the prior
schema state unchanged (each CREATE runs in autocommit mode, so the first
one persists). -/
theorem c9_counterexample_partial_creation :
    criar_tabelas true false { titulares := false, dependentes := false } =
      (.erroCriarTabelas, { titulares := true, dependentes := false }) ∧
    ({ titulares := true, dependentes := false } : SchemaState) ≠
      { titulares := false, dependentes := false } := by decide

/-- Claim C9 as amended: on the success path `criar_tabelas` is idempotent —
a second call yields the same schema state as one call, and calling it when
both tables exist succeeds and leaves the schema unchanged; a failure of
the FIRST statement leaves the schema unchanged, but a failure between the
two CREATE statements can leave only the first table created. -/
theorem c9_amended_idempotent_success :
    (∀ s : SchemaState,
      (criar_tabelas true true (criar_tabelas true true s).2).2 =
        (criar_tabelas true true s).2) ∧
    criar_tabelas true true { titulares := true, dependentes := true } =
      (.tabelasCriadas, { titulares := true, dependentes := true }) ∧
    (∀ (e : Bool) (s : SchemaState), (criar_tabelas false e s).2 = s) := by
  refine ⟨fun s => ?_, by decide, fun e s => ?_⟩
  · cases s; rfl
  · rfl

/-- Claim C6: for a well-formed tax ID, `remover_pessoa` checks the holder
table first: whenever a holder row carries the ID — in particular when a
dependent row carries it as well — the call deletes exactly the matching
holder rows and leaves the `Dependentes` table entirely untouched; and when
no row of either table carries the ID, it reports not-found and leaves the
database unchanged. -/
theorem c6_remover_holder_first_notfound_no_mutation :
    ∀ (cpf : String) (db : DB), cpf_valido cpf = true →
      ((db.titulares.any fun t => sqlEq t.cpf (.vtext cpf)) = true →
        remover_pessoa cpf db =
          (.titularRemovido cpf,
           { titulares :=
               db.titulares.filter fun t => !(sqlEq t.cpf (.vtext cpf)),
             dependentes := db.dependentes })) ∧
      ((db.titulares.any fun t => sqlEq t.cpf (.vtext cpf)) = false →
        (db.dependentes.any fun d => sqlEq d.cpf (.vtext cpf)) = false →
        remover_pessoa cpf db = (.pessoaNaoEncontrada cpf, db)) := by
  intro cpf db hv
  constructor
  · intro ht
    simp [remover_pessoa, hv, ht]
  · intro ht hd
    have hfilter :
        (db.dependentes.filter fun d => !(sqlEq d.cpf (.vtext cpf))) =
          db.dependentes := by
      rw [List.filter_eq_self]
      intro a ha
      have := List.any_eq_false.mp hd a ha
      simp_all
    simp [remover_pessoa, hv, ht, hfilter]

/-- Claim C6 witness: removing a valid tax ID present in neither table of
the populated example store reports not-found and mutates nothing. -/
theorem c6_remover_witness :
    remover_pessoa "99999999999" exDB =
      (.pessoaNaoEncontrada "99999999999", exDB) :=
  (c6_remover_holder_first_notfound_no_mutation "99999999999" exDB
    (by decide)).2 (by decide) (by decide)

theorem exc_ok_bind {α β : Type} (a : α) (f : α → Except PyExc β) :
    (Except.ok a : Except PyExc α) >>= f = f a := rfl

theorem exc_error_bind {α β : Type} (e : PyExc) (f : α → Except PyExc β) :
    (Except.error e : Except PyExc α) >>= f = Except.error e := rfl

theorem exc_ok_map {α β : Type} (a : α) (f : α → β) :
    f <$> (Except.ok a : Except PyExc α) = Except.ok (f a) := rfl

theorem exc_error_map {α β : Type} (e : PyExc) (f : α → β) :
    f <$> (Except.error e : Except PyExc α) = Except.error e := rfl

theorem exc_pure {α : Type} (a : α) :
    (pure a : Except PyExc α) = Except.ok a := rfl

/-- Claim C3: `inserir_dependente` checks its preconditions in order — the
dependent's tax ID is validated first (its failure is reported even before
the holder's tax ID is read), then the holder's tax ID, then the holder's
existence; when no holder row carries the referenced tax ID the operation
reports the missing holder and the database is returned unchanged, with no
row created in either table. -/
theorem c3_dependente_precondition_order :
    ∀ (dados : Dados) (db : DB) (cpfD : String),
      dados.lookup "cpf" = some (.vtext cpfD) →
      (cpf_valido cpfD = false →
        inserir_dependente dados db =
          .ok (.cpfInvalidoDependente cpfD, db)) ∧
      (∀ cpfT : String, dados.lookup "cpf_titular" = some (.vtext cpfT) →
        (cpf_valido cpfD = true → cpf_valido cpfT = false →
          inserir_dependente dados db =
            .ok (.cpfInvalidoTitular cpfT, db)) ∧
        (cpf_valido cpfD = true → cpf_valido cpfT = true →
          (db.titulares.any fun t => sqlEq t.cpf (.vtext cpfT)) = false →
          inserir_dependente dados db =
            .ok (.titularNaoEncontrado cpfT, db))) := by
  intro dados db cpfD h1
  refine ⟨fun hv => ?_,
    fun cpfT h2 => ⟨fun hv1 hv2 => ?_, fun hv1 hv2 hex => ?_⟩⟩
  · simp [inserir_dependente, getKey, h1, asPyStr, hv, exc_ok_bind,
      exc_error_bind, exc_ok_map, exc_error_map, exc_pure]
  · simp [inserir_dependente, getKey, h1, h2, asPyStr, hv1, hv2,
      exc_ok_bind, exc_error_bind, exc_ok_map, exc_error_map, exc_pure]
  · simp [inserir_dependente, getKey, h1, h2, asPyStr, hv1, hv2, hex,
      exc_ok_bind, exc_error_bind, exc_ok_map, exc_error_map, exc_pure]
    intro t ht htrue
    exact absurd htrue (List.any_eq_false.mp hex t ht)

/-- Claim C3 witness: inserting the source's dependent record into the empty
store (its holder was never inserted) reports the missing holder and leaves
the store empty. -/
theorem c3_dependente_witness :
    inserir_dependente dadosDependente emptyDB =
      .ok (.titularNaoEncontrado "12930888466", emptyDB) :=
  ((c3_dependente_precondition_order dadosDependente emptyDB "21223344556"
      (by decide)).2 "12930888466" (by decide)).2 (by decide) (by decide)
      (by decide)

/-- Evaluation of `inserir_titular` when every INSERT parameter key is
present in the record: the validation, integrity-conflict and success
outcomes, mirroring the source's control flow. -/
theorem inserir_titular_eval
    (dados : Dados) (db : DB) (c : String)
    (v2 v3 v4 v5 v6 v7 v8 v9 v10 v11 v12 v13 v14 v15 v16 : Val)
    (h1 : dados.lookup "cpf" = some (.vtext c))
    (h2 : dados.lookup "credencial" = some v2)
    (h3 : dados.lookup "nome" = some v3)
    (h4 : dados.lookup "sexo" = some v4)
    (h5 : dados.lookup "dt_nascimento" = some v5)
    (h6 : dados.lookup "idade" = some v6)
    (h7 : dados.lookup "faixa_ans" = some v7)
    (h8 : dados.lookup "estado_civil" = some v8)
    (h9 : dados.lookup "tipo_suplementar" = some v9)
    (h10 : dados.lookup "cep" = some v10)
    (h11 : dados.lookup "bairro" = some v11)
    (h12 : dados.lookup "cidade" = some v12)
    (h13 : dados.lookup "estado" = some v13)
    (h14 : dados.lookup "status" = some v14)
    (h15 : dados.lookup "data_inicio" = some v15)
    (h16 : dados.lookup "data_fim" = some v16) :
    inserir_titular dados db =
      (if cpf_valido c = false then .ok (.cpfInvalido c, db)
       else if titularConflict db
           { cpf := .vtext c, credencial := v2, nome := v3, sexo := v4,
             dtNascimento := v5, idade := v6, faixaAns := v7,
             estadoCivil := v8, tipoSuplementar := v9, cep := v10,
             bairro := v11, cidade := v12, estado := v13,
             statusSegurado := v14, dataInicio := v15, dataFim := v16 } =
           true
       then .ok (.erroIntegridade, db)
       else .ok (.inseridoComSucesso v3,
         { db with titulares := db.titulares ++
             [{ cpf := .vtext c, credencial := v2, nome := v3, sexo := v4,
                dtNascimento := v5, idade := v6, faixaAns := v7,
                estadoCivil := v8, tipoSuplementar := v9, cep := v10,
                bairro := v11, cidade := v12, estado := v13,
                statusSegurado := v14, dataInicio := v15,
                dataFim := v16 }] })) := by
  by_cases hv : cpf_valido c = true
  · by_cases hc : titularConflict db
        { cpf := .vtext c, credencial := v2, nome := v3, sexo := v4,
          dtNascimento := v5, idade := v6, faixaAns := v7,
          estadoCivil := v8, tipoSuplementar := v9, cep := v10,
          bairro := v11, cidade := v12, estado := v13,
          statusSegurado := v14, dataInicio := v15, dataFim := v16 } = true
    · simp [inserir_titular, getKey, h1, h2, h3, h4, h5, h6, h7, h8, h9,
        h10, h11, h12, h13, h14, h15, h16, asPyStr, hv, hc, exc_ok_bind,
        exc_error_bind, exc_ok_map, exc_error_map, exc_pure]
    · have hc' : titularConflict db
          { cpf := .vtext c, credencial := v2, nome := v3, sexo := v4,
            dtNascimento := v5, idade := v6, faixaAns := v7,
            estadoCivil := v8, tipoSuplementar := v9, cep := v10,
            bairro := v11, cidade := v12, estado := v13,
            statusSegurado := v14, dataInicio := v15, dataFim := v16 } =
          false := by
        revert hc
        cases titularConflict db
            { cpf := .vtext c, credencial := v2, nome := v3, sexo := v4,
              dtNascimento := v5, idade := v6, faixaAns := v7,
              estadoCivil := v8, tipoSuplementar := v9, cep := v10,
              bairro := v11, cidade := v12, estado := v13,
              statusSegurado := v14, dataInicio := v15, dataFim := v16 } <;>
          simp
      simp [inserir_titular, getKey, h1, h2, h3, h4, h5, h6, h7, h8, h9,
        h10, h11, h12, h13, h14, h15, h16, asPyStr, hv, hc', exc_ok_bind,
        exc_error_bind, exc_ok_map, exc_error_map, exc_pure]
  · have hv' : cpf_valido c = false := by
      revert hv; cases cpf_valido c <;> simp
    simp [inserir_titular, getKey, h1, asPyStr, hv', exc_ok_bind,
      exc_error_bind, exc_ok_map, exc_error_map, exc_pure]

/-- Evaluation of `inserir_dependente` when every INSERT parameter key is
present in the record: the two validations, the holder-existence check, the
integrity-conflict check and the success outcome, mirroring the source's
control flow. -/
theorem inserir_dependente_eval
    (dados : Dados) (db : DB) (c ct : String)
    (w2 w3 w4 w5 w6 w7 w8 w9 w10 w11 w12 w13 : Val)
    (h1 : dados.lookup "cpf" = some (.vtext c))
    (h2 : dados.lookup "cpf_titular" = some (.vtext ct))
    (h3 : dados.lookup "credencial" = some w2)
    (h4 : dados.lookup "nome" = some w3)
    (h5 : dados.lookup "sexo" = some w4)
    (h6 : dados.lookup "dt_nascimento" = some w5)
    (h7 : dados.lookup "idade" = some w6)
    (h8 : dados.lookup "faixa_ans" = some w7)
    (h9 : dados.lookup "estado_civil" = some w8)
    (h10 : dados.lookup "grau_parentesco" = some w9)
    (h11 : dados.lookup "tipo_suplementar" = some w10)
    (h12 : dados.lookup "status" = some w11)
    (h13 : dados.lookup "data_inicio" = some w12)
    (h14 : dados.lookup "data_fim" = some w13) :
    inserir_dependente dados db =
      (if cpf_valido c = false then .ok (.cpfInvalidoDependente c, db)
       else if cpf_valido ct = false then .ok (.cpfInvalidoTitular ct, db)
       else if (db.titulares.any fun t => sqlEq t.cpf (.vtext ct)) = false
       then .ok (.titularNaoEncontrado ct, db)
       else if dependenteConflict db
           { cpf := .vtext c, credencial := w2, nome := w3, sexo := w4,
             dtNascimento := w5, idade := w6, faixaAns := w7,
             estadoCivil := w8, grauParentesco := w9,
             tipoSuplementar := w10, cpfTitular := .vtext ct,
             statusSegurado := w11, dataInicio := w12, dataFim := w13 } =
           true
       then .ok (.erroIntegridade, db)
       else .ok (.inseridoComSucesso w3,
         { db with dependentes := db.dependentes ++
             [{ cpf := .vtext c, credencial := w2, nome := w3, sexo := w4,
                dtNascimento := w5, idade := w6, faixaAns := w7,
                estadoCivil := w8, grauParentesco := w9,
                tipoSuplementar := w10, cpfTitular := .vtext ct,
                statusSegurado := w11, dataInicio := w12,
                dataFim := w13 }] })) := by
  by_cases hv1 : cpf_valido c = true
  · by_cases hv2 : cpf_valido ct = true
    · by_cases hex : (db.titulares.any fun t => sqlEq t.cpf (.vtext ct)) =
          true
      · by_cases hc : dependenteConflict db
            { cpf := .vtext c, credencial := w2, nome := w3, sexo := w4,
              dtNascimento := w5, idade := w6, faixaAns := w7,
              estadoCivil := w8, grauParentesco := w9,
              tipoSuplementar := w10, cpfTitular := .vtext ct,
              statusSegurado := w11, dataInicio := w12, dataFim := w13 } =
            true
        · simp [inserir_dependente, getKey, h1, h2, h3, h4, h5, h6, h7, h8,
            h9, h10, h11, h12, h13, h14, asPyStr, hv1, hv2, hex, hc,
            exc_ok_bind, exc_error_bind, exc_ok_map, exc_error_map,
            exc_pure]
          exact List.any_eq_true.mp hex
        · have hc' : dependenteConflict db
              { cpf := .vtext c, credencial := w2, nome := w3, sexo := w4,
                dtNascimento := w5, idade := w6, faixaAns := w7,
                estadoCivil := w8, grauParentesco := w9,
                tipoSuplementar := w10, cpfTitular := .vtext ct,
                statusSegurado := w11, dataInicio := w12,
                dataFim := w13 } = false := by
            revert hc
            cases dependenteConflict db
                { cpf := .vtext c, credencial := w2, nome := w3, sexo := w4,
                  dtNascimento := w5, idade := w6, faixaAns := w7,
                  estadoCivil := w8, grauParentesco := w9,
                  tipoSuplementar := w10, cpfTitular := .vtext ct,
                  statusSegurado := w11, dataInicio := w12,
                  dataFim := w13 } <;> simp
          simp [inserir_dependente, getKey, h1, h2, h3, h4, h5, h6, h7, h8,
            h9, h10, h11, h12, h13, h14, asPyStr, hv1, hv2, hex, hc',
            exc_ok_bind, exc_error_bind, exc_ok_map, exc_error_map,
            exc_pure]
          exact List.any_eq_true.mp hex
      · have hex' : (db.titulares.any fun t => sqlEq t.cpf (.vtext ct)) =
            false := by
          revert hex
          cases db.titulares.any fun t => sqlEq t.cpf (.vtext ct) <;> simp
        simp [inserir_dependente, getKey, h1, h2, asPyStr, hv1, hv2, hex',
          exc_ok_bind, exc_error_bind, exc_ok_map, exc_error_map, exc_pure]
        intro t ht htrue
        exact absurd htrue (List.any_eq_false.mp hex' t ht)
    · have hv2' : cpf_valido ct = false := by
        revert hv2; cases cpf_valido ct <;> simp
      simp [inserir_dependente, getKey, h1, h2, asPyStr, hv1, hv2',
        exc_ok_bind, exc_error_bind, exc_ok_map, exc_error_map, exc_pure]
  · have hv1' : cpf_valido c = false := by
      revert hv1; cases cpf_valido c <;> simp
    simp [inserir_dependente, getKey, h1, asPyStr, hv1', exc_ok_bind,
      exc_error_bind, exc_ok_map, exc_error_map, exc_pure]

/-- Claim C5: inserting a holder whose tax ID — or whose credential — is
already stored always fails with an integrity violation and returns the
database exactly as it was: no row is added, no stored row is updated (no
upsert), so the store still contains exactly the one existing row for that
tax ID. -/
theorem c5_duplicate_titular_integrity :
    ∀ (dados : Dados) (db : DB) (c : String)
      (v2 v3 v4 v5 v6 v7 v8 v9 v10 v11 v12 v13 v14 v15 v16 : Val),
      dados.lookup "cpf" = some (.vtext c) →
      dados.lookup "credencial" = some v2 →
      dados.lookup "nome" = some v3 →
      dados.lookup "sexo" = some v4 →
      dados.lookup "dt_nascimento" = some v5 →
      dados.lookup "idade" = some v6 →
      dados.lookup "faixa_ans" = some v7 →
      dados.lookup "estado_civil" = some v8 →
      dados.lookup "tipo_suplementar" = some v9 →
      dados.lookup "cep" = some v10 →
      dados.lookup "bairro" = some v11 →
      dados.lookup "cidade" = some v12 →
      dados.lookup "estado" = some v13 →
      dados.lookup "status" = some v14 →
      dados.lookup "data_inicio" = some v15 →
      dados.lookup "data_fim" = some v16 →
      cpf_valido c = true →
      (db.titulares.any fun t =>
        sqlEq t.cpf (.vtext c) || sqlEq t.credencial v2) = true →
      inserir_titular dados db = .ok (.erroIntegridade, db) := by
  intro dados db c v2 v3 v4 v5 v6 v7 v8 v9 v10 v11 v12 v13 v14 v15 v16
    h1 h2 h3 h4 h5 h6 h7 h8 h9 h10 h11 h12 h13 h14 h15 h16 hv hdup
  rw [inserir_titular_eval dados db c v2 v3 v4 v5 v6 v7 v8 v9 v10 v11 v12
    v13 v14 v15 v16 h1 h2 h3 h4 h5 h6 h7 h8 h9 h10 h11 h12 h13 h14 h15 h16]
  have hc : titularConflict db
      { cpf := .vtext c, credencial := v2, nome := v3, sexo := v4,
        dtNascimento := v5, idade := v6, faixaAns := v7, estadoCivil := v8,
        tipoSuplementar := v9, cep := v10, bairro := v11, cidade := v12,
        estado := v13, statusSegurado := v14, dataInicio := v15,
        dataFim := v16 } = true := by
    rcases List.any_eq_true.mp hdup with ⟨t, ht, hor⟩
    rcases Bool.or_eq_true_iff.mp hor with hcpf | hcred
    · have hany : (db.titulares.any fun t => sqlEq t.cpf (Val.vtext c)) =
          true := List.any_eq_true.mpr ⟨t, ht, hcpf⟩
      simp [titularConflict, hany]
    · have hany : (db.titulares.any fun t => sqlEq t.credencial v2) =
          true := List.any_eq_true.mpr ⟨t, ht, hcred⟩
      simp [titularConflict, hany]
  simp [hv, hc]

/-- Claim C5 witness: re-inserting the source's holder record when its row
is already stored fails with an integrity violation and leaves the single
stored row unchanged. -/
theorem c5_duplicate_titular_witness :
    inserir_titular dadosTitular
      { titulares := [exTitular], dependentes := [] } =
      .ok (.erroIntegridade,
           { titulares := [exTitular], dependentes := [] }) :=
  c5_duplicate_titular_integrity dadosTitular
    { titulares := [exTitular], dependentes := [] } "12930888466"
    (.vtext "CRED001") (.vtext "Julius Cesar") (.vtext "M")
    (.vtext "2001-05-10") (.vint 24) (.vtext "Adulto") (.vtext "Solteiro")
    (.vtext "Ouro") (.vtext "12345678") (.vtext "Timbi")
    (.vtext "Camaragibe") (.vtext "PE") (.vtext "Ativo")
    (.vtext "2025-01-01") .vnull
    (by decide) (by decide) (by decide) (by decide) (by decide) (by decide)
    (by decide) (by decide) (by decide) (by decide) (by decide) (by decide)
    (by decide) (by decide) (by decide) (by decide) (by decide) (by decide)

/-- Claim C4, counterexample: calling `inserir_titular` with a record that
lacks the `nome` key (tax ID present and valid) raises `KeyError` past the
operation boundary — the `except sqlite3` clauses do not catch it — so an
exception escapes to the caller instead of being reported as an outcome. -/
theorem c4_counterexample_keyerror_escapes :
    inserir_titular dadosTitularSemNome emptyDB =
      .error (.keyError "nome") := by decide

/-- Helper: with every INSERT parameter key present, `inserir_titular`
returns an outcome on all its paths. -/
theorem inserir_titular_isOk_of_full
    (dados : Dados) (db : DB) (c : String)
    (v2 v3 v4 v5 v6 v7 v8 v9 v10 v11 v12 v13 v14 v15 v16 : Val)
    (h1 : dados.lookup "cpf" = some (.vtext c))
    (h2 : dados.lookup "credencial" = some v2)
    (h3 : dados.lookup "nome" = some v3)
    (h4 : dados.lookup "sexo" = some v4)
    (h5 : dados.lookup "dt_nascimento" = some v5)
    (h6 : dados.lookup "idade" = some v6)
    (h7 : dados.lookup "faixa_ans" = some v7)
    (h8 : dados.lookup "estado_civil" = some v8)
    (h9 : dados.lookup "tipo_suplementar" = some v9)
    (h10 : dados.lookup "cep" = some v10)
    (h11 : dados.lookup "bairro" = some v11)
    (h12 : dados.lookup "cidade" = some v12)
    (h13 : dados.lookup "estado" = some v13)
    (h14 : dados.lookup "status" = some v14)
    (h15 : dados.lookup "data_inicio" = some v15)
    (h16 : dados.lookup "data_fim" = some v16) :
    (inserir_titular dados db).isOk = true := by
  rw [inserir_titular_eval dados db c v2 v3 v4 v5 v6 v7 v8 v9 v10 v11
    v12 v13 v14 v15 v16 h1 h2 h3 h4 h5 h6 h7 h8 h9 h10 h11 h12 h13 h14
    h15 h16]
  split
  · rfl
  · split
    · rfl
    · rfl

/-- Helper: with every INSERT parameter key present, `inserir_dependente`
returns an outcome on all its paths. -/
theorem inserir_dependente_isOk_of_full
    (dados : Dados) (db : DB) (c ct : String)
    (w2 w3 w4 w5 w6 w7 w8 w9 w10 w11 w12 w13 : Val)
    (h1 : dados.lookup "cpf" = some (.vtext c))
    (h2 : dados.lookup "cpf_titular" = some (.vtext ct))
    (h3 : dados.lookup "credencial" = some w2)
    (h4 : dados.lookup "nome" = some w3)
    (h5 : dados.lookup "sexo" = some w4)
    (h6 : dados.lookup "dt_nascimento" = some w5)
    (h7 : dados.lookup "idade" = some w6)
    (h8 : dados.lookup "faixa_ans" = some w7)
    (h9 : dados.lookup "estado_civil" = some w8)
    (h10 : dados.lookup "grau_parentesco" = some w9)
    (h11 : dados.lookup "tipo_suplementar" = some w10)
    (h12 : dados.lookup "status" = some w11)
    (h13 : dados.lookup "data_inicio" = some w12)
    (h14 : dados.lookup "data_fim" = some w13) :
    (inserir_dependente dados db).isOk = true := by
  rw [inserir_dependente_eval dados db c ct w2 w3 w4 w5 w6 w7 w8 w9 w10
    w11 w12 w13 h1 h2 h3 h4 h5 h6 h7 h8 h9 h10 h11 h12 h13 h14]
  split
  · rfl
  · split
    · rfl
    · split
      · rfl
      · split
        · rfl
        · rfl

/-- Claim C4 as amended: statement-level storage failures are caught and
reported inside every operation — with a usable connection, schema
creation returns an outcome even when its CREATE statements fail, removal
and listing always return an outcome, and the two inserts return an
outcome for every fully-populated record (every required key present, tax
IDs strings).  The boundary is nevertheless leaky on inputs the original
claim covered: a record missing a required key makes an insert raise
`KeyError` (the counterexample), and a failed `sqlite3.connect` makes
every operation raise `UnboundLocalError` out of its `finally` clause
(`conn.close()` on a never-bound `conn`), shown here for each operation
once its pre-connection validations pass. -/
theorem c4_amended_boundary_behavior :
    (∀ (e1 e2 : Bool) (s : SchemaState),
      (criar_tabelas_conn true e1 e2 s).isOk = true) ∧
    (∀ (cpf : String) (db : DB),
      (remover_pessoa_conn true cpf db).isOk = true) ∧
    (∀ db : DB, (listar_pessoas_conn true db).isOk = true) ∧
    (∀ (dados : Dados) (db : DB) (c : String)
       (v2 v3 v4 v5 v6 v7 v8 v9 v10 v11 v12 v13 v14 v15 v16 : Val),
      dados.lookup "cpf" = some (.vtext c) →
      dados.lookup "credencial" = some v2 →
      dados.lookup "nome" = some v3 →
      dados.lookup "sexo" = some v4 →
      dados.lookup "dt_nascimento" = some v5 →
      dados.lookup "idade" = some v6 →
      dados.lookup "faixa_ans" = some v7 →
      dados.lookup "estado_civil" = some v8 →
      dados.lookup "tipo_suplementar" = some v9 →
      dados.lookup "cep" = some v10 →
      dados.lookup "bairro" = some v11 →
      dados.lookup "cidade" = some v12 →
      dados.lookup "estado" = some v13 →
      dados.lookup "status" = some v14 →
      dados.lookup "data_inicio" = some v15 →
      dados.lookup "data_fim" = some v16 →
      (inserir_titular_conn true dados db).isOk = true) ∧
    (∀ (dados : Dados) (db : DB) (c ct : String)
       (w2 w3 w4 w5 w6 w7 w8 w9 w10 w11 w12 w13 : Val),
      dados.lookup "cpf" = some (.vtext c) →
      dados.lookup "cpf_titular" = some (.vtext ct) →
      dados.lookup "credencial" = some w2 →
      dados.lookup "nome" = some w3 →
      dados.lookup "sexo" = some w4 →
      dados.lookup "dt_nascimento" = some w5 →
      dados.lookup "idade" = some w6 →
      dados.lookup "faixa_ans" = some w7 →
      dados.lookup "estado_civil" = some w8 →
      dados.lookup "grau_parentesco" = some w9 →
      dados.lookup "tipo_suplementar" = some w10 →
      dados.lookup "status" = some w11 →
      dados.lookup "data_inicio" = some w12 →
      dados.lookup "data_fim" = some w13 →
      (inserir_dependente_conn true dados db).isOk = true) ∧
    (∀ (e1 e2 : Bool) (s : SchemaState),
      criar_tabelas_conn false e1 e2 s = .error .unboundLocalError) ∧
    (∀ db : DB,
      listar_pessoas_conn false db = .error .unboundLocalError) ∧
    (∀ (cpf : String) (db : DB), cpf_valido cpf = true →
      remover_pessoa_conn false cpf db = .error .unboundLocalError) ∧
    (∀ (dados : Dados) (db : DB) (c : String),
      dados.lookup "cpf" = some (.vtext c) → cpf_valido c = true →
      inserir_titular_conn false dados db = .error .unboundLocalError) ∧
    (∀ (dados : Dados) (db : DB) (c ct : String),
      dados.lookup "cpf" = some (.vtext c) →
      dados.lookup "cpf_titular" = some (.vtext ct) →
      cpf_valido c = true → cpf_valido ct = true →
      inserir_dependente_conn false dados db =
        .error .unboundLocalError) := by
  refine ⟨fun e1 e2 s => rfl, fun cpf db => ?_, fun db => rfl, ?_, ?_,
    fun e1 e2 s => rfl, fun db => rfl, ?_, ?_, ?_⟩
  · unfold remover_pessoa_conn
    split
    · rfl
    · rfl
  · intro dados db c v2 v3 v4 v5 v6 v7 v8 v9 v10 v11 v12 v13 v14 v15 v16
      h1 h2 h3 h4 h5 h6 h7 h8 h9 h10 h11 h12 h13 h14 h15 h16
    have hok := inserir_titular_isOk_of_full dados db c v2 v3 v4 v5 v6 v7
      v8 v9 v10 v11 v12 v13 v14 v15 v16 h1 h2 h3 h4 h5 h6 h7 h8 h9 h10
      h11 h12 h13 h14 h15 h16
    by_cases hv : cpf_valido c = true
    · simp [inserir_titular_conn, getKey, h1, asPyStr, hv, exc_ok_bind,
        exc_pure, Except.isOk]
      simpa [Except.isOk] using hok
    · have hv2 : cpf_valido c = false := by
        revert hv; cases cpf_valido c <;> simp
      simp [inserir_titular_conn, getKey, h1, asPyStr, hv2, exc_ok_bind,
        exc_pure, Except.isOk, Except.toBool]
  · intro dados db c ct w2 w3 w4 w5 w6 w7 w8 w9 w10 w11 w12 w13
      h1 h2 h3 h4 h5 h6 h7 h8 h9 h10 h11 h12 h13 h14
    have hok := inserir_dependente_isOk_of_full dados db c ct w2 w3 w4 w5
      w6 w7 w8 w9 w10 w11 w12 w13 h1 h2 h3 h4 h5 h6 h7 h8 h9 h10 h11 h12
      h13 h14
    by_cases hv1 : cpf_valido c = true
    · by_cases hv2 : cpf_valido ct = true
      · simp [inserir_dependente_conn, getKey, h1, h2, asPyStr, hv1, hv2,
          exc_ok_bind, exc_pure, Except.isOk]
        simpa [Except.isOk] using hok
      · have hv2f : cpf_valido ct = false := by
          revert hv2; cases cpf_valido ct <;> simp
        simp [inserir_dependente_conn, getKey, h1, h2, asPyStr, hv1, hv2f,
          exc_ok_bind, exc_pure, Except.isOk, Except.toBool]
    · have hv1f : cpf_valido c = false := by
        revert hv1; cases cpf_valido c <;> simp
      simp [inserir_dependente_conn, getKey, h1, asPyStr, hv1f,
        exc_ok_bind, exc_pure, Except.isOk, Except.toBool]
  · intro cpf db hv
    simp [remover_pessoa_conn, hv]
  · intro dados db c h1 hv
    simp [inserir_titular_conn, getKey, h1, asPyStr, hv, exc_ok_bind,
      exc_pure]
  · intro dados db c ct h1 h2 hv1 hv2
    simp [inserir_dependente_conn, getKey, h1, h2, asPyStr, hv1, hv2,
      exc_ok_bind, exc_pure]

/-- Claim C4 witness: the titular insert, connection succeeding, applied to
the source's complete test record returns an outcome rather than an
exception. -/
theorem c4_amended_boundary_witness :
    (inserir_titular_conn true dadosTitular emptyDB).isOk = true :=
  c4_amended_boundary_behavior.2.2.2.1 dadosTitular emptyDB
    "12930888466" (.vtext "CRED001") (.vtext "Julius Cesar") (.vtext "M")
    (.vtext "2001-05-10") (.vint 24) (.vtext "Adulto") (.vtext "Solteiro")
    (.vtext "Ouro") (.vtext "12345678") (.vtext "Timbi")
    (.vtext "Camaragibe") (.vtext "PE") (.vtext "Ativo")
    (.vtext "2025-01-01") .vnull
    (by decide) (by decide) (by decide) (by decide) (by decide) (by decide)
    (by decide) (by decide) (by decide) (by decide) (by decide) (by decide)
    (by decide) (by decide) (by decide) (by decide)

/-- Claim C8, counterexample: a holder record with a valid tax ID and every
field present EXCEPT the end-date key does not insert successfully — the
source always evaluates `dados['data_fim']`, so the call raises `KeyError`
and no row is created. -/
theorem c8_counterexample_missing_datafim :
    inserir_titular dadosTitularSemDataFim emptyDB =
      .error (.keyError "data_fim") := by decide

/-- Claim C8 as amended: the coverage end date may be null but its key may
not be absent: a holder record with a valid, fresh tax ID, all keys
present and the end-date key mapped to null inserts successfully, storing
null as the end date; a record missing the end-date key raises `KeyError`
instead. -/
theorem c8_amended_null_datafim_succeeds :
    ∀ (dados : Dados) (db : DB) (c : String)
      (v2 v3 v4 v5 v6 v7 v8 v9 v10 v11 v12 v13 v14 v15 : Val),
      dados.lookup "cpf" = some (.vtext c) →
      dados.lookup "credencial" = some v2 →
      dados.lookup "nome" = some v3 →
      dados.lookup "sexo" = some v4 →
      dados.lookup "dt_nascimento" = some v5 →
      dados.lookup "idade" = some v6 →
      dados.lookup "faixa_ans" = some v7 →
      dados.lookup "estado_civil" = some v8 →
      dados.lookup "tipo_suplementar" = some v9 →
      dados.lookup "cep" = some v10 →
      dados.lookup "bairro" = some v11 →
      dados.lookup "cidade" = some v12 →
      dados.lookup "estado" = some v13 →
      dados.lookup "status" = some v14 →
      dados.lookup "data_inicio" = some v15 →
      dados.lookup "data_fim" = some .vnull →
      cpf_valido c = true →
      titularConflict db
        { cpf := .vtext c, credencial := v2, nome := v3, sexo := v4,
          dtNascimento := v5, idade := v6, faixaAns := v7,
          estadoCivil := v8, tipoSuplementar := v9, cep := v10,
          bairro := v11, cidade := v12, estado := v13,
          statusSegurado := v14, dataInicio := v15, dataFim := .vnull } =
        false →
      inserir_titular dados db =
        .ok (.inseridoComSucesso v3,
          { db with titulares := db.titulares ++
              [{ cpf := .vtext c, credencial := v2, nome := v3, sexo := v4,
                 dtNascimento := v5, idade := v6, faixaAns := v7,
                 estadoCivil := v8, tipoSuplementar := v9, cep := v10,
                 bairro := v11, cidade := v12, estado := v13,
                 statusSegurado := v14, dataInicio := v15,
                 dataFim := .vnull }] }) := by
  intro dados db c v2 v3 v4 v5 v6 v7 v8 v9 v10 v11 v12 v13 v14 v15
    h1 h2 h3 h4 h5 h6 h7 h8 h9 h10 h11 h12 h13 h14 h15 h16 hv hc
  rw [inserir_titular_eval dados db c v2 v3 v4 v5 v6 v7 v8 v9 v10 v11 v12
    v13 v14 v15 .vnull h1 h2 h3 h4 h5 h6 h7 h8 h9 h10 h11 h12 h13 h14 h15
    h16]
  simp [hv, hc]

/-- Claim C8 witness: the source's holder record, whose end date is null,
inserts successfully into the empty store with null stored as the end
date. -/
theorem c8_amended_witness :
    inserir_titular dadosTitular emptyDB =
      .ok (.inseridoComSucesso (.vtext "Julius Cesar"),
           { titulares := [exTitular], dependentes := [] }) :=
  c8_amended_null_datafim_succeeds dadosTitular emptyDB "12930888466"
    (.vtext "CRED001") (.vtext "Julius Cesar") (.vtext "M")
    (.vtext "2001-05-10") (.vint 24) (.vtext "Adulto") (.vtext "Solteiro")
    (.vtext "Ouro") (.vtext "12345678") (.vtext "Timbi")
    (.vtext "Camaragibe") (.vtext "PE") (.vtext "Ativo")
    (.vtext "2025-01-01")
    (by decide) (by decide) (by decide) (by decide) (by decide) (by decide)
    (by decide) (by decide) (by decide) (by decide) (by decide) (by decide)
    (by decide) (by decide) (by decide) (by decide) (by decide) (by decide)

/-- Claim C10: in every store state satisfying the dependent primary-key
invariant (no two dependent rows share a tax ID), the dependent section of
the report contains exactly those dependent rows whose holder tax ID
matches an existing holder row: a dependent row appears (under its tax ID)
iff some holder row carries its referenced holder tax ID — so a dependent
whose holder is absent is silently omitted by the inner join — while the
operation leaves the store, including any such orphan row, unchanged. -/
theorem c10_report_inner_join_membership :
    ∀ (db : DB) (d : DependenteRow),
      (db.dependentes.map DependenteRow.cpf).Nodup →
      d ∈ db.dependentes →
      ((∃ t ∈ db.titulares, sqlEq d.cpfTitular t.cpf = true) ↔
        ∃ v ∈ (listar_pessoas db).1.2, v.cpf = d.cpf) ∧
      (listar_pessoas db).2 = db := by
  intro db d hnd hd
  have hperm : ((listar_pessoas db).1.2).Perm
      ((joinDependentes db).map projDependente) := List.mergeSort_perm _ _
  refine ⟨⟨?_, ?_⟩, rfl⟩
  · rintro ⟨t, ht, heq⟩
    refine ⟨projDependente (d, t), ?_, rfl⟩
    rw [hperm.mem_iff]
    apply List.mem_map_of_mem
    simp only [joinDependentes, List.mem_flatMap]
    exact ⟨d, hd, List.mem_map_of_mem _ (List.mem_filter.mpr ⟨ht, heq⟩)⟩
  · rintro ⟨v, hv, hvcpf⟩
    rw [hperm.mem_iff] at hv
    rcases List.mem_map.mp hv with ⟨p, hp, hproj⟩
    simp only [joinDependentes, List.mem_flatMap] at hp
    rcases hp with ⟨d2, hd2, hpair⟩
    rcases List.mem_map.mp hpair with ⟨t2, ht2, hpt⟩
    rcases List.mem_filter.mp ht2 with ⟨ht2m, ht2e⟩
    subst hpt
    have hcpf2 : d2.cpf = d.cpf := by
      have hh : (projDependente (d2, t2)).cpf = v.cpf := by rw [hproj]
      simpa [projDependente] using hh.trans hvcpf
    have hdd : d2 = d := List.inj_on_of_nodup_map hnd hd2 hd hcpf2
    subst hdd
    exact ⟨t2, ht2m, ht2e⟩

/-- Claim C10 witness: in the example store the dependent's holder exists,
and accordingly the dependent appears in the report; the listing leaves the
store unchanged. -/
theorem c10_report_witness :
    ((∃ t ∈ exDB.titulares, sqlEq exDependente.cpfTitular t.cpf = true) ↔
      ∃ v ∈ (listar_pessoas exDB).1.2, v.cpf = exDependente.cpf) ∧
    (listar_pessoas exDB).2 = exDB :=
  c10_report_inner_join_membership exDB exDependente (by decide) (by decide)
